import Mathlib

/-!
Verification of the interactive GrabCut segmentation tool (`grabcut.py`).

The program is a single class `GrabCut` driving an interactive session:
Phase A (rectangle selection, mouse callback `draw_rectangle`), then on
Enter Phase B (scribble refinement, mouse callback `draw_markers`), with
the OpenCV `cv2.grabCut` engine invoked on each confirm and the
foreground-only preview recomputed from the label mask.

We embed the program shallowly: images and label masks are row-major
grids `List (List Nat)` (one `Nat` per pixel cell; the mask holds GrabCut
labels 0 = definite background, 1 = definite foreground, 2 = probable
background, 3 = probable foreground).  The external OpenCV raster
primitives (`cv2.circle`, `cv2.rectangle`, `np.where`, `cv2.bitwise_and`)
are modelled as pure grid functions; the external segmentation engine
`cv2.grabCut` is a parameter of type `Engine` that may fail (raise), and
the session state machine `step`/`runEvents` is translated line by line
from `GrabCut.run`, `GrabCut.draw_rectangle`, `GrabCut.draw_markers` and
`GrabCut.segment`.  Engine invocations and image writes are additionally
recorded in trace fields (`calls`, `writes`) so that trace properties
("invoked exactly once with ...", "writes to path ...") can be stated.
-/

/-- A raster grid: rows of cells, one `Nat` per cell (a packed pixel value
for images, a GrabCut label 0..3 for masks). -/
abbrev Grid : Type := List (List Nat)

namespace GrabCut

/-- Indexed map over a list, carrying the index starting from `n`. -/
def mapIdxFrom (f : Nat → α → α) : Nat → List α → List α
  | _, [] => []
  | n, a :: l => f n a :: mapIdxFrom f (n + 1) l

/-- Indexed map over a grid: `f row col cell`. -/
def gridMapIdx (f : Nat → Nat → Nat → Nat) (g : Grid) : Grid :=
  mapIdxFrom (fun i row => mapIdxFrom (fun j v => f i j v) 0 row) 0 g

/-- Read a cell (row `i`, column `j`); out-of-range reads default to 0. -/
def gridGet (g : Grid) (i j : Nat) : Nat :=
  (g.getD i []).getD j 0

/-- Predicate: `g` is an `h × w` rectangular grid. -/
def isRect (g : Grid) (h w : Nat) : Prop :=
  g.length = h ∧ ∀ row ∈ g, row.length = w

instance (g : Grid) (h w : Nat) : Decidable (isRect g h w) := by
  unfold isRect; infer_instance

/-- Model of `np.zeros_like` and `np.zeros(shape[:2])`: a grid of zeros with the same
shape as `g`. -/
def zerosLike (g : Grid) : Grid :=
  gridMapIdx (fun _ _ _ => 0) g

/-- Model of the external `cv2.circle(img, (cx, cy), r, v, -1)`: paints the
filled disc of radius `r` centred at point `(cx, cy)` (x = column,
y = row) with value `v`, clipped to the grid; cells outside the grid do
not exist and are never touched. -/
def cvCircle (g : Grid) (cx cy : Int) (r : Nat) (v : Nat) : Grid :=
  gridMapIdx (fun i j old =>
    if ((j : Int) - cx) * ((j : Int) - cx) + ((i : Int) - cy) * ((i : Int) - cy)
        ≤ (r : Int) * (r : Int) then v else old) g

/-- Model of the external `cv2.rectangle(img, p1, p2, v, 2)`: paints a
border band of thickness 2 around the axis-aligned rectangle spanned by
`p1 = (x1, y1)` and `p2 = (x2, y2)`, clipped to the grid. -/
def cvRectangle (g : Grid) (x1 y1 x2 y2 : Int) (v : Nat) : Grid :=
  gridMapIdx (fun i j old =>
    if (min x1 x2 - 1 ≤ (j : Int) ∧ (j : Int) ≤ max x1 x2 + 1 ∧
        min y1 y2 - 1 ≤ (i : Int) ∧ (i : Int) ≤ max y1 y2 + 1) ∧
       ((j : Int) ≤ min x1 x2 + 1 ∨ max x1 x2 - 1 ≤ (j : Int) ∨
        (i : Int) ≤ min y1 y2 + 1 ∨ max y1 y2 - 1 ≤ (i : Int))
    then v else old) g

/-- The expression `np.where((mask==1) + (mask==3), 255, 0)` of `GrabCut.run`
(lines 117 and 149): the binary foreground mask, 255 where the label is
definite foreground (1) or probable foreground (3), 0 elsewhere. -/
def binMask (m : Grid) : Grid :=
  gridMapIdx (fun _ _ v => if v = 1 ∨ v = 3 then 255 else 0) m

/-- Model of `cv2.bitwise_and(img, img, mask=m)`: where the mask cell is nonzero the
destination receives `img AND img`, elsewhere it stays at the zero it was
initialised to. -/
def bitwiseAndSelfMask (img m : Grid) : Grid :=
  gridMapIdx (fun i j a => if gridGet m i j ≠ 0 then Nat.land a a else 0) img

/-- The Compositor of `GrabCut.run` (lines 117-118 and 149-150):
`segmented_image = cv2.bitwise_and(orig, orig, mask=np.where((mask==1)+(mask==3),255,0))`. -/
def composite (img m : Grid) : Grid :=
  bitwiseAndSelfMask img (binMask m)

/-- A rectangle as stored in `self.rect`: `(x, y, w, h)`. -/
abbrev RectT : Type := Int × Int × Int × Int

/-- The normalized event stream consumed by the session: the three mouse
events delivered to the current `cv2.setMouseCallback` handler, and key
codes returned by `cv2.waitKey` (27 = Esc/abort, 13 = Enter/confirm,
32 = Space/toggle-brush, 115 = s/save). -/
inductive Event where
  | lbuttondown (x y : Int)
  | mousemove (x y : Int)
  | lbuttonup (x y : Int)
  | key (k : Nat)
deriving DecidableEq, Repr

/-- Where control currently sits in `GrabCut.run`: the Phase A loop
(lines 104-107), the Phase B loop (lines 124-150), normal termination
(Esc), or an uncaught exception that killed the process. -/
inductive GCPhase where
  | phaseA
  | phaseB
  | terminated
  | crashed
deriving DecidableEq, Repr

/-- The mutable state of a `GrabCut` object together with the control
phase of `run` and two trace fields: `calls` logs each `cv2.grabCut`
invocation as `(rect argument, initialized flag)`, and `writes` logs each
`cv2.imwrite` target path. -/
structure GCState where
  originalImage : Grid
  image : Grid
  segmented : Grid
  mask : Grid
  output_path : String
  x : Int
  y : Int
  w : Int
  h : Int
  rect : Option RectT
  drawing : Bool
  background : Bool
  segmentation_initialized : Bool
  phase : GCPhase
  calls : List (Option RectT × Bool)
  writes : List String
deriving DecidableEq, Repr

/-- The external segmentation engine `cv2.grabCut(img, mask, rect, bgd,
fgd, 1, mode)`.  The two model arrays are freshly zeroed on every call in
`GrabCut.segment`, so the engine is a function of the image, the current
mask, the rect and the mode (`initialized = false` ↦ GC_INIT_WITH_RECT,
`true` ↦ GC_INIT_WITH_MASK); `none` models the engine raising an error. -/
abbrev Engine : Type :=
  Grid → Grid → Option RectT → Bool → Option Grid

/-- The constructor `GrabCut.__init__` (given a successfully decoded image grid). -/
def initState (img : Grid) (out : String) : GCState :=
  { originalImage := img
    image := img
    segmented := zerosLike img
    mask := zerosLike img
    output_path := out
    x := 0, y := 0, w := 0, h := 0
    rect := none
    drawing := false
    background := true
    segmentation_initialized := false
    phase := GCPhase.phaseA
    calls := []
    writes := [] }

/-- The method `GrabCut.segment(initialized)` (lines 78-85): invoke the engine on
`(original_image, mask, rect)` with the mode picked by `initialized`.  On
success the engine updates `mask` in place; on failure the exception
propagates uncaught, killing the session (`crashed`).  The invocation is
logged either way. -/
def segment (engine : Engine) (s : GCState) (initialized : Bool) : GCState :=
  match engine s.originalImage s.mask s.rect initialized with
  | some m =>
      { s with mask := m, calls := s.calls ++ [(s.rect, initialized)] }
  | none =>
      { s with phase := GCPhase.crashed, calls := s.calls ++ [(s.rect, initialized)] }

/-- Recompute `segmented_image` from the current mask (`GrabCut.run`
lines 117-118 and 149-150). -/
def recompute (s : GCState) : GCState :=
  { s with segmented := composite s.originalImage s.mask }

/-- The method `GrabCut.draw_rectangle` (lines 31-51), the Phase A mouse callback. -/
def draw_rectangle (s : GCState) (e : Event) : GCState :=
  match e with
  | Event.lbuttondown px py =>
      { s with drawing := true, x := px, y := py }
  | Event.mousemove px py =>
      if s.drawing then
        { s with image := cvRectangle s.originalImage s.x s.y px py 255 }
      else s
  | Event.lbuttonup px py =>
      let nw := |s.x - px|
      let nh := |s.y - py|
      let nx := min s.x px
      let ny := min s.y py
      let img :=
        if nx = px ∨ ny = py then
          cvRectangle s.originalImage nx ny (nx + nw) (ny + nh) 255
        else
          cvRectangle s.originalImage nx ny px py 255
      { s with drawing := false, w := nw, h := nh, x := nx, y := ny, image := img }
  | Event.key _ => s

/-- The method `GrabCut.draw_markers` (lines 54-75), the Phase B mouse callback:
stamp a radius-3 disc of the current brush colour on the overlay image
and of the current brush label marker on the mask (background brush:
colour 0, marker 0; foreground brush: colour 255, marker 1). -/
def draw_markers (s : GCState) (e : Event) : GCState :=
  let color : Nat := if s.background then 0 else 255
  let marker : Nat := if s.background then 0 else 1
  match e with
  | Event.lbuttondown px py =>
      { s with drawing := true
               image := cvCircle s.image px py 3 color
               mask := cvCircle s.mask px py 3 marker }
  | Event.mousemove px py =>
      if s.drawing then
        { s with image := cvCircle s.image px py 3 color
                 mask := cvCircle s.mask px py 3 marker }
      else s
  | Event.lbuttonup px py =>
      if s.drawing then
        { s with drawing := false
                 image := cvCircle s.image px py 3 color
                 mask := cvCircle s.mask px py 3 marker }
      else s
  | Event.key _ => s

/-- The break out of the Phase A wait loop on Enter (`GrabCut.run`
lines 109-121): freeze `rect` from the interaction fields, run the
initial rect-based segmentation if not yet initialized (recomputing the
preview on success), and enter Phase B. -/
def confirmA (engine : Engine) (s : GCState) : GCState :=
  let s1 := { s with drawing := false, rect := some (s.x, s.y, s.w, s.h) }
  if s1.segmentation_initialized then
    { s1 with phase := GCPhase.phaseB }
  else
    let s2 := segment engine { s1 with segmentation_initialized := true } false
    if s2.phase = GCPhase.crashed then s2
    else { recompute s2 with phase := GCPhase.phaseB }

/-- Model of the Python string method `endswith(p)`: the characters of `p` are a suffix of the
characters of `s`. -/
def endswith (s p : String) : Bool :=
  p.data.isSuffixOf s.data

/-- The save-path choice of `GrabCut.run` (lines 142-145): keep the
configured output path exactly when it ends with `.png` or `.jpg`,
otherwise silently fall back to the fixed default `output.jpg`. -/
def savePath (p : String) : String :=
  if endswith p ".png" || endswith p ".jpg" then p else "output.jpg"

/-- One iteration of the Phase B loop body on a key event (`GrabCut.run`
lines 127-150): Esc breaks, Space toggles the brush and `continue`s,
Enter re-segments, `s` saves; every path except Esc and Space falls
through to the preview recomputation. -/
def phaseBKey (engine : Engine) (s : GCState) (k : Nat) : GCState :=
  if k = 27 then
    { s with phase := GCPhase.terminated }
  else if k = 32 then
    (if s.background then { s with background := false }
     else { s with background := true })
  else if k = 13 then
    let s' := segment engine s s.segmentation_initialized
    if s'.phase = GCPhase.crashed then s' else recompute s'
  else if k = 115 then
    recompute { s with writes := s.writes ++ [savePath s.output_path] }
  else
    recompute s

/-- One step of the session on one input event.  In Phase A mouse events
go to `draw_rectangle` and the wait loop breaks on Esc (terminate) or
Enter (`confirmA`); in Phase B mouse events go to `draw_markers` and key
events to the loop body.  A terminated or crashed session consumes no
further events. -/
def step (engine : Engine) (s : GCState) (e : Event) : GCState :=
  match s.phase with
  | GCPhase.phaseA =>
      match e with
      | Event.key k =>
          if k = 27 then { s with phase := GCPhase.terminated }
          else if k = 13 then confirmA engine s
          else s
      | _ => draw_rectangle s e
  | GCPhase.phaseB =>
      match e with
      | Event.key k => phaseBKey engine s k
      | _ => draw_markers s e
  | GCPhase.terminated => s
  | GCPhase.crashed => s

/-- Run the session from state `s` over a list of input events. -/
def runEvents (engine : Engine) (s : GCState) (es : List Event) : GCState :=
  es.foldl (step engine) s

/-- An engine that always succeeds and returns the mask unchanged (the
degenerate "no refinement" engine, used to exercise the session logic). -/
def constEngine : Engine := fun _ m _ _ => some m

/-- An engine faithful to the failure mode of `cv2.grabCut` for this program:
in GC_INIT_WITH_RECT mode a degenerate (zero-area) rectangle makes the
engine raise; otherwise it returns the mask unchanged. -/
def zeroRectEngine : Engine := fun _ m r init =>
  match r, init with
  | some (_, _, w, h), false => if w = 0 ∨ h = 0 then none else some m
  | _, _ => some m

/-- Is this event a pointer-move? -/
def isMove : Event → Bool
  | Event.mousemove _ _ => true
  | _ => false

/-- Is this event a pointer-up? -/
def isUp : Event → Bool
  | Event.lbuttonup _ _ => true
  | _ => false

/-- Events that, in Phase A, neither re-anchor nor re-finalize the
rectangle nor leave the phase: pointer-moves and keys other than
Enter (13) and Esc (27). -/
def quietA : Event → Bool
  | Event.mousemove _ _ => true
  | Event.key k => k != 13 && k != 27
  | _ => false

/-- Number of logged engine invocations made with `initialized = false`
(GC_INIT_WITH_RECT mode). -/
def countFalse (l : List (Option RectT × Bool)) : Nat :=
  (l.filter (fun c => c.2 == false)).length

/-- A concrete 2×2 sample image used by witnesses and counterexamples. -/
def sampleImg : Grid := [[5, 5], [5, 5]]

/-- Event-list shape for C1: a finalizing pointer-up, then some quiet
Phase A events, then the confirm key. -/
def upThenConfirm (ux uy : Int) (es : List Event) : List Event :=
  Event.lbuttonup ux uy :: (es ++ [Event.key 13])

/-! ### Basic grid lemmas -/

theorem mapIdxFrom_length (f : Nat → α → α) (n : Nat) (l : List α) :
    (mapIdxFrom f n l).length = l.length := by
  induction l generalizing n with
  | nil => rfl
  | cons a t ih => simp [mapIdxFrom, ih]

theorem mapIdxFrom_getD (f : Nat → α → α) (n : Nat) (l : List α) (i : Nat) (d : α)
    (h : i < l.length) :
    (mapIdxFrom f n l).getD i d = f (n + i) (l.getD i d) := by
  induction l generalizing n i with
  | nil => simp at h
  | cons a t ih =>
    cases i with
    | zero => simp [mapIdxFrom]
    | succ j =>
      have hj : j < t.length := by simpa using h
      have harith : n + 1 + j = n + (j + 1) := by omega
      simp only [mapIdxFrom, List.getD_cons_succ]
      rw [ih (n + 1) j hj, harith]

theorem mapIdxFrom_eq_self (f : Nat → α → α) (n : Nat) (l : List α) (d : α)
    (h : ∀ i, i < l.length → f (n + i) (l.getD i d) = l.getD i d) :
    mapIdxFrom f n l = l := by
  induction l generalizing n with
  | nil => rfl
  | cons a t ih =>
    have h0 := h 0 (by simp)
    simp only [List.getD_cons_zero, Nat.add_zero] at h0
    simp only [mapIdxFrom, h0, List.cons.injEq, true_and]
    refine ih (n + 1) (fun i hi => ?_)
    have := h (i + 1) (by simpa using Nat.succ_lt_succ hi)
    simpa [Nat.add_assoc, Nat.add_comm 1 i] using this

theorem gridMapIdx_length (f : Nat → Nat → Nat → Nat) (g : Grid) :
    (gridMapIdx f g).length = g.length :=
  mapIdxFrom_length _ _ _

theorem gridMapIdx_getD_row (f : Nat → Nat → Nat → Nat) (g : Grid) (i : Nat)
    (hi : i < g.length) :
    (gridMapIdx f g).getD i [] = mapIdxFrom (fun j v => f i j v) 0 (g.getD i []) := by
  unfold gridMapIdx
  rw [mapIdxFrom_getD _ _ _ _ _ hi, Nat.zero_add]

theorem gridMapIdx_row_length (f : Nat → Nat → Nat → Nat) (g : Grid) (i : Nat)
    (hi : i < g.length) :
    ((gridMapIdx f g).getD i []).length = (g.getD i []).length := by
  rw [gridMapIdx_getD_row _ _ _ hi, mapIdxFrom_length]

theorem gridGet_gridMapIdx (f : Nat → Nat → Nat → Nat) (g : Grid) (i j : Nat)
    (hi : i < g.length) (hj : j < (g.getD i []).length) :
    gridGet (gridMapIdx f g) i j = f i j (gridGet g i j) := by
  unfold gridGet
  rw [gridMapIdx_getD_row _ _ _ hi, mapIdxFrom_getD _ _ _ _ _ hj, Nat.zero_add]

theorem gridMapIdx_eq_self (f : Nat → Nat → Nat → Nat) (g : Grid)
    (h : ∀ i j, i < g.length → j < (g.getD i []).length →
      f i j (gridGet g i j) = gridGet g i j) :
    gridMapIdx f g = g := by
  refine mapIdxFrom_eq_self _ 0 g [] (fun i hi => ?_)
  rw [Nat.zero_add]
  refine mapIdxFrom_eq_self _ 0 _ 0 (fun j hj => ?_)
  rw [Nat.zero_add]
  exact h i j hi hj

theorem isRect_row_length (g : Grid) (H W : Nat) (hg : isRect g H W) (i : Nat)
    (hi : i < H) :
    (g.getD i []).length = W := by
  have hlen : i < g.length := by rw [hg.1]; exact hi
  have hmem : g.getD i [] ∈ g := by
    rw [List.getD_eq_getElem _ _ hlen]
    exact List.getElem_mem hlen
  exact hg.2 _ hmem

theorem land_self_nat (a : Nat) : Nat.land a a = a := by
  have h : a &&& a = a := by
    apply Nat.eq_of_testBit_eq
    intro i
    simp [Nat.testBit_land]
  exact h

/-! ### C4: the Compositor -/

/-- C4: for every image and every mask of matching dimensions, the
composite (preview) buffer has, at each pixel, exactly the source image
colour when the mask cell is definite-foreground (label 1) or
probable-foreground (label 3), and the zero pixel otherwise.  `composite`
is a pure function, so the result depends only on the (image, mask)
pair. -/
theorem C4_composite_pointwise (img m : Grid) (H W i j : Nat)
    (himg : isRect img H W) (hm : isRect m H W) (hi : i < H) (hj : j < W) :
    gridGet (composite img m) i j =
      (if gridGet m i j = 1 ∨ gridGet m i j = 3 then gridGet img i j else 0) := by
  have hgi : i < img.length := by rw [himg.1]; exact hi
  have hgj : j < (img.getD i []).length := by
    rw [isRect_row_length img H W himg i hi]; exact hj
  have hmi : i < m.length := by rw [hm.1]; exact hi
  have hmj : j < (m.getD i []).length := by
    rw [isRect_row_length m H W hm i hi]; exact hj
  have hbin : gridGet (binMask m) i j =
      (if gridGet m i j = 1 ∨ gridGet m i j = 3 then 255 else 0) := by
    unfold binMask
    exact gridGet_gridMapIdx _ _ _ _ hmi hmj
  unfold composite bitwiseAndSelfMask
  rw [gridGet_gridMapIdx _ _ _ _ hgi hgj, hbin]
  by_cases hc : gridGet m i j = 1 ∨ gridGet m i j = 3
  · simp [hc, land_self_nat]
  · simp [hc]

theorem C4_composite_pointwise_witness :
    isRect [[5, 6], [7, 8]] 2 2 ∧ isRect [[1, 0], [2, 3]] 2 2 ∧ 0 < 2 ∧ 1 < 2 ∧
    gridGet (composite [[5, 6], [7, 8]] [[1, 0], [2, 3]]) 0 1 =
      (if gridGet [[1, 0], [2, 3]] 0 1 = 1 ∨ gridGet [[1, 0], [2, 3]] 0 1 = 3 then
        gridGet [[5, 6], [7, 8]] 0 1 else 0) :=
  ⟨by decide, by decide, by decide, by decide,
    C4_composite_pointwise [[5, 6], [7, 8]] [[1, 0], [2, 3]] 2 2 0 1
      (by decide) (by decide) (by decide) (by decide)⟩

/-! ### C7: the save-path fallback -/

/-- C7: a save request writes to the configured output path exactly when
that path ends in one of the recognized image extensions (`.png`,
`.jpg`); otherwise the fixed default filename `output.jpg` is silently
substituted — in particular the configured path `"out.txt"` is replaced
by `output.jpg`.  In the session, the `s` key in Phase B logs exactly one
write, to `savePath output_path`. -/
theorem C7_save_fallback (engine : Engine) (s : GCState) (p : String)
    (hB : s.phase = GCPhase.phaseB) :
    (savePath p = p ↔ (endswith p ".png" || endswith p ".jpg") = true) ∧
    savePath "out.txt" = "output.jpg" ∧
    (step engine s (Event.key 115)).writes = s.writes ++ [savePath s.output_path] := by
  refine ⟨⟨fun hfix => ?_, fun hrec => ?_⟩, by decide, ?_⟩
  · by_cases hc : (endswith p ".png" || endswith p ".jpg") = true
    · exact hc
    · have hdef : savePath p = "output.jpg" := by
        unfold savePath
        simp [hc]
      rw [hdef] at hfix
      rw [← hfix]
      decide
  · unfold savePath
    simp [hrec]
  · simp [step, hB, phaseBKey, recompute]

theorem C7_save_fallback_witness :
    (runEvents constEngine (initState sampleImg "out.txt") [Event.key 13]).phase
        = GCPhase.phaseB ∧
    ((savePath "a.txt" = "a.txt" ↔
        (endswith "a.txt" ".png" || endswith "a.txt" ".jpg") = true) ∧
      savePath "out.txt" = "output.jpg" ∧
      (step constEngine
          (runEvents constEngine (initState sampleImg "out.txt") [Event.key 13])
          (Event.key 115)).writes =
        (runEvents constEngine (initState sampleImg "out.txt") [Event.key 13]).writes
          ++ [savePath
              (runEvents constEngine (initState sampleImg "out.txt")
                [Event.key 13]).output_path]) :=
  ⟨by decide,
    C7_save_fallback constEngine
      (runEvents constEngine (initState sampleImg "out.txt") [Event.key 13])
      "a.txt" (by decide)⟩

/-! ### C9: out-of-bounds stamps -/

theorem nine_lt_mul_self_of_three_lt {a : Int} (h : 3 < a) : 9 < a * a := by
  nlinarith

theorem nine_lt_mul_self_of_lt_neg_three {a : Int} (h : a < -3) : 9 < a * a := by
  nlinarith

/-- C9: stamping a disc of radius 3 whose centre lies outside the image
bounds by more than the radius leaves every mask cell with its previous
label, and the stamp never fails; more generally every in-bounds cell
outside the stamped disc retains its previous label (partial stamps are
clipped to the grid, never rejected). -/
theorem C9_oob_stamp (m : Grid) (H W : Nat) (cx cy : Int) (v : Nat)
    (hm : isRect m H W) :
    ((cx + 3 < 0 ∨ (W : Int) + 3 ≤ cx ∨ cy + 3 < 0 ∨ (H : Int) + 3 ≤ cy) →
        cvCircle m cx cy 3 v = m) ∧
    (∀ i j, i < H → j < W →
        9 < ((j : Int) - cx) * ((j : Int) - cx) + ((i : Int) - cy) * ((i : Int) - cy) →
        gridGet (cvCircle m cx cy 3 v) i j = gridGet m i j) := by
  have houtside : ∀ i j : Nat,
      (cx + 3 < 0 ∨ (W : Int) + 3 ≤ cx ∨ cy + 3 < 0 ∨ (H : Int) + 3 ≤ cy) →
      i < H → j < W →
      9 < ((j : Int) - cx) * ((j : Int) - cx) + ((i : Int) - cy) * ((i : Int) - cy) := by
    intro i j hfar hi hj
    have hx0 : (0 : Int) ≤ (j : Int) := Int.ofNat_nonneg j
    have hy0 : (0 : Int) ≤ (i : Int) := Int.ofNat_nonneg i
    have hxW : (j : Int) ≤ (W : Int) - 1 := by
      have := Int.ofNat_lt.mpr hj
      omega
    have hyH : (i : Int) ≤ (H : Int) - 1 := by
      have := Int.ofNat_lt.mpr hi
      omega
    have hxx : (0 : Int) ≤ ((j : Int) - cx) * ((j : Int) - cx) := mul_self_nonneg _
    have hyy : (0 : Int) ≤ ((i : Int) - cy) * ((i : Int) - cy) := mul_self_nonneg _
    rcases hfar with h1 | h2 | h3 | h4
    · have : 3 < (j : Int) - cx := by omega
      have := nine_lt_mul_self_of_three_lt this
      linarith
    · have : (j : Int) - cx < -3 := by omega
      have := nine_lt_mul_self_of_lt_neg_three this
      linarith
    · have : 3 < (i : Int) - cy := by omega
      have := nine_lt_mul_self_of_three_lt this
      linarith
    · have : (i : Int) - cy < -3 := by omega
      have := nine_lt_mul_self_of_lt_neg_three this
      linarith
  constructor
  · intro hfar
    unfold cvCircle
    refine gridMapIdx_eq_self _ _ (fun i j hi hj => ?_)
    have hiH : i < H := by rw [← hm.1]; exact hi
    have hjW : j < W := by
      rw [← isRect_row_length m H W hm i hiH]; exact hj
    have := houtside i j hfar hiH hjW
    rw [if_neg (by omega)]
  · intro i j hi hj hdist
    have hmi : i < m.length := by rw [hm.1]; exact hi
    have hmj : j < (m.getD i []).length := by
      rw [isRect_row_length m H W hm i hi]; exact hj
    unfold cvCircle
    rw [gridGet_gridMapIdx _ _ _ _ hmi hmj, if_neg (by push_cast; omega)]

theorem C9_oob_stamp_witness :
    isRect [[0, 1], [2, 3]] 2 2 ∧
    ((((10 : Int) + 3 < 0 ∨ (2 : Int) + 3 ≤ 10 ∨ (0 : Int) + 3 < 0 ∨ (2 : Int) + 3 ≤ 0) →
        cvCircle [[0, 1], [2, 3]] 10 0 3 1 = [[0, 1], [2, 3]]) ∧
      (∀ i j : Nat, i < 2 → j < 2 →
        9 < ((j : Int) - 10) * ((j : Int) - 10) + ((i : Int) - 0) * ((i : Int) - 0) →
        gridGet (cvCircle [[0, 1], [2, 3]] 10 0 3 1) i j = gridGet [[0, 1], [2, 3]] i j)) :=
  ⟨by decide, C9_oob_stamp [[0, 1], [2, 3]] 2 2 10 0 1 (by decide)⟩

/-! ### C8: brush toggling -/

/-- C8: in Phase B a toggle-brush key event (Space) changes only the
Brush Mode flag: the label mask, the visual overlay, the preview, the
drawing flag and the phase are all unchanged, and the flag is flipped.
Strokes stamped after the toggle use the flipped label: a pointer-down
right after the toggle stamps the disc with marker 1 when the brush was
`background` before the toggle and 0 otherwise. -/
theorem C8_toggle_only_flag (engine : Engine) (s : GCState) (px py : Int)
    (hB : s.phase = GCPhase.phaseB) :
    (step engine s (Event.key 32)).mask = s.mask ∧
    (step engine s (Event.key 32)).image = s.image ∧
    (step engine s (Event.key 32)).segmented = s.segmented ∧
    (step engine s (Event.key 32)).drawing = s.drawing ∧
    (step engine s (Event.key 32)).phase = GCPhase.phaseB ∧
    (step engine s (Event.key 32)).background = !s.background ∧
    (step engine (step engine s (Event.key 32)) (Event.lbuttondown px py)).mask
      = cvCircle s.mask px py 3 (if s.background then 1 else 0) := by
  by_cases hb : s.background <;>
    simp [step, hB, phaseBKey, draw_markers, hb]

theorem C8_toggle_only_flag_witness :
    (runEvents constEngine (initState sampleImg "o.png") [Event.key 13]).phase
        = GCPhase.phaseB ∧
    ((step constEngine (runEvents constEngine (initState sampleImg "o.png") [Event.key 13])
        (Event.key 32)).mask
      = (runEvents constEngine (initState sampleImg "o.png") [Event.key 13]).mask ∧
      (step constEngine (runEvents constEngine (initState sampleImg "o.png") [Event.key 13])
        (Event.key 32)).image
      = (runEvents constEngine (initState sampleImg "o.png") [Event.key 13]).image ∧
      (step constEngine (runEvents constEngine (initState sampleImg "o.png") [Event.key 13])
        (Event.key 32)).segmented
      = (runEvents constEngine (initState sampleImg "o.png") [Event.key 13]).segmented ∧
      (step constEngine (runEvents constEngine (initState sampleImg "o.png") [Event.key 13])
        (Event.key 32)).drawing
      = (runEvents constEngine (initState sampleImg "o.png") [Event.key 13]).drawing ∧
      (step constEngine (runEvents constEngine (initState sampleImg "o.png") [Event.key 13])
        (Event.key 32)).phase = GCPhase.phaseB ∧
      (step constEngine (runEvents constEngine (initState sampleImg "o.png") [Event.key 13])
        (Event.key 32)).background
      = !(runEvents constEngine (initState sampleImg "o.png") [Event.key 13]).background ∧
      (step constEngine
        (step constEngine (runEvents constEngine (initState sampleImg "o.png") [Event.key 13])
          (Event.key 32)) (Event.lbuttondown 0 0)).mask
      = cvCircle (runEvents constEngine (initState sampleImg "o.png") [Event.key 13]).mask 0 0 3
          (if (runEvents constEngine (initState sampleImg "o.png") [Event.key 13]).background
           then 1 else 0)) :=
  ⟨by decide,
    C8_toggle_only_flag constEngine
      (runEvents constEngine (initState sampleImg "o.png") [Event.key 13]) 0 0 (by decide)⟩

/-! ### C10: the pointer-up stamp -/

/-- C10: in Phase B, a pointer-up while painting stamps one more disc of
the current brush label at the release coordinate on both the mask and
the overlay, and then clears the painting flag — in addition to the discs
stamped by the initiating pointer-down and by each pointer-move while
painting, which are also recorded here. -/
theorem C10_up_stamps (engine : Engine) (s : GCState) (px py : Int)
    (hB : s.phase = GCPhase.phaseB) (hd : s.drawing = true) :
    (step engine s (Event.lbuttonup px py)).mask
        = cvCircle s.mask px py 3 (if s.background then 0 else 1) ∧
    (step engine s (Event.lbuttonup px py)).image
        = cvCircle s.image px py 3 (if s.background then 0 else 255) ∧
    (step engine s (Event.lbuttonup px py)).drawing = false ∧
    (step engine s (Event.mousemove px py)).mask
        = cvCircle s.mask px py 3 (if s.background then 0 else 1) ∧
    (step engine s (Event.lbuttondown px py)).mask
        = cvCircle s.mask px py 3 (if s.background then 0 else 1) ∧
    (step engine s (Event.lbuttondown px py)).drawing = true := by
  by_cases hb : s.background <;>
    simp [step, hB, phaseBKey, draw_markers, hd, hb]

theorem C10_up_stamps_witness :
    (runEvents constEngine (initState sampleImg "o.png")
        [Event.key 13, Event.lbuttondown 0 0]).phase = GCPhase.phaseB ∧
    (runEvents constEngine (initState sampleImg "o.png")
        [Event.key 13, Event.lbuttondown 0 0]).drawing = true ∧
    (step constEngine
        (runEvents constEngine (initState sampleImg "o.png")
          [Event.key 13, Event.lbuttondown 0 0]) (Event.lbuttonup 1 1)).mask
      = cvCircle
          (runEvents constEngine (initState sampleImg "o.png")
            [Event.key 13, Event.lbuttondown 0 0]).mask 1 1 3
          (if (runEvents constEngine (initState sampleImg "o.png")
                [Event.key 13, Event.lbuttondown 0 0]).background then 0 else 1) :=
  ⟨by decide, by decide,
    (C10_up_stamps constEngine
      (runEvents constEngine (initState sampleImg "o.png")
        [Event.key 13, Event.lbuttondown 0 0]) 1 1 (by decide) (by decide)).1⟩

/-! ### C6: rectangle normalization -/

theorem stepA_move_fields (engine : Engine) (s : GCState) (px py : Int)
    (hA : s.phase = GCPhase.phaseA) :
    (step engine s (Event.mousemove px py)).x = s.x ∧
    (step engine s (Event.mousemove px py)).y = s.y ∧
    (step engine s (Event.mousemove px py)).w = s.w ∧
    (step engine s (Event.mousemove px py)).h = s.h ∧
    (step engine s (Event.mousemove px py)).drawing = s.drawing ∧
    (step engine s (Event.mousemove px py)).phase = GCPhase.phaseA := by
  by_cases hd : s.drawing <;> simp [step, hA, draw_rectangle, hd]

theorem runA_moves_fields (engine : Engine) (s : GCState) (moves : List Event)
    (hA : s.phase = GCPhase.phaseA) (hmv : moves.all isMove = true) :
    (runEvents engine s moves).x = s.x ∧
    (runEvents engine s moves).y = s.y ∧
    (runEvents engine s moves).w = s.w ∧
    (runEvents engine s moves).h = s.h ∧
    (runEvents engine s moves).drawing = s.drawing ∧
    (runEvents engine s moves).phase = GCPhase.phaseA := by
  induction moves generalizing s with
  | nil => exact ⟨rfl, rfl, rfl, rfl, rfl, hA⟩
  | cons e t ih =>
    simp only [List.all_cons, Bool.and_eq_true] at hmv
    obtain ⟨he, hmv⟩ := hmv
    rcases e with _ | ⟨px, py⟩ | _ | _ <;> simp [isMove] at he
    obtain ⟨h1, h2, h3, h4, h5, h6⟩ := stepA_move_fields engine s px py hA
    have hrun : runEvents engine s (Event.mousemove px py :: t)
        = runEvents engine (step engine s (Event.mousemove px py)) t := rfl
    rw [hrun]
    obtain ⟨g1, g2, g3, g4, g5, g6⟩ :=
      ih (step engine s (Event.mousemove px py)) h6 hmv
    exact ⟨by rw [g1, h1], by rw [g2, h2], by rw [g3, h3],
      by rw [g4, h4], by rw [g5, h5], g6⟩

/-- C6: for every Phase-A drag — pointer-down at the anchor `(ax, ay)`,
any number of pointer-moves, then pointer-up at `(ux, uy)` — the
interaction fields hold the finalized rectangle with
`x = min ax ux`, `y = min ay uy`, `w = |ax - ux|`, `h = |ay - uy|`
(top-left normalized, absolute-difference extents), and the drag flag is
cleared. -/
theorem C6_drag_normalized (engine : Engine) (s : GCState) (ax ay ux uy : Int)
    (moves : List Event)
    (hA : s.phase = GCPhase.phaseA) (hmv : moves.all isMove = true) :
    (runEvents engine s (Event.lbuttondown ax ay :: (moves ++ [Event.lbuttonup ux uy]))).x
        = min ax ux ∧
    (runEvents engine s (Event.lbuttondown ax ay :: (moves ++ [Event.lbuttonup ux uy]))).y
        = min ay uy ∧
    (runEvents engine s (Event.lbuttondown ax ay :: (moves ++ [Event.lbuttonup ux uy]))).w
        = |ax - ux| ∧
    (runEvents engine s (Event.lbuttondown ax ay :: (moves ++ [Event.lbuttonup ux uy]))).h
        = |ay - uy| ∧
    (runEvents engine s (Event.lbuttondown ax ay :: (moves ++ [Event.lbuttonup ux uy]))).drawing
        = false := by
  have hdown : runEvents engine s (Event.lbuttondown ax ay :: (moves ++ [Event.lbuttonup ux uy]))
      = runEvents engine (step engine s (Event.lbuttondown ax ay))
          (moves ++ [Event.lbuttonup ux uy]) := rfl
  have hs1 : step engine s (Event.lbuttondown ax ay)
      = { s with drawing := true, x := ax, y := ay } := by
    simp [step, hA, draw_rectangle]
  have hsplit : runEvents engine ({ s with drawing := true, x := ax, y := ay })
      (moves ++ [Event.lbuttonup ux uy])
      = step engine
          (runEvents engine ({ s with drawing := true, x := ax, y := ay }) moves)
          (Event.lbuttonup ux uy) := by
    unfold runEvents
    rw [List.foldl_append]
    rfl
  obtain ⟨g1, g2, _, _, _, g6⟩ :=
    runA_moves_fields engine ({ s with drawing := true, x := ax, y := ay }) moves hA hmv
  rw [hdown, hs1, hsplit]
  rw [show step engine
        (runEvents engine ({ s with drawing := true, x := ax, y := ay }) moves)
        (Event.lbuttonup ux uy)
      = draw_rectangle
          (runEvents engine ({ s with drawing := true, x := ax, y := ay }) moves)
          (Event.lbuttonup ux uy) from by simp [step, g6]]
  simp [draw_rectangle, g1, g2]

theorem C6_drag_normalized_witness :
    (initState sampleImg "o.png").phase = GCPhase.phaseA ∧
    [Event.mousemove 9 9].all isMove = true ∧
    ((runEvents constEngine (initState sampleImg "o.png")
        (Event.lbuttondown 6 1 :: ([Event.mousemove 9 9] ++ [Event.lbuttonup 2 7]))).x
        = min 6 2 ∧
      (runEvents constEngine (initState sampleImg "o.png")
        (Event.lbuttondown 6 1 :: ([Event.mousemove 9 9] ++ [Event.lbuttonup 2 7]))).y
        = min 1 7 ∧
      (runEvents constEngine (initState sampleImg "o.png")
        (Event.lbuttondown 6 1 :: ([Event.mousemove 9 9] ++ [Event.lbuttonup 2 7]))).w
        = |(6 : Int) - 2| ∧
      (runEvents constEngine (initState sampleImg "o.png")
        (Event.lbuttondown 6 1 :: ([Event.mousemove 9 9] ++ [Event.lbuttonup 2 7]))).h
        = |(1 : Int) - 7| ∧
      (runEvents constEngine (initState sampleImg "o.png")
        (Event.lbuttondown 6 1 :: ([Event.mousemove 9 9] ++ [Event.lbuttonup 2 7]))).drawing
        = false) :=
  ⟨by decide, by decide,
    C6_drag_normalized constEngine (initState sampleImg "o.png") 6 1 2 7
      [Event.mousemove 9 9] (by decide) (by decide)⟩

/-! ### C2: confirm exits Phase A unconditionally -/

/-- C2 fails on the code: the Phase A wait loop breaks on Enter without
checking that any pointer-up ever occurred.  A session whose only event
is the confirm key — so no pointer-up at all — leaves Phase A and reaches
Phase B (with the default all-zero rectangle). -/
theorem C2_counterexample :
    [Event.key 13].all (fun e => !isUp e) = true ∧
    (runEvents constEngine (initState sampleImg "o.png") [Event.key 13]).phase
        = GCPhase.phaseB ∧
    (runEvents constEngine (initState sampleImg "o.png") [Event.key 13]).phase
        ≠ GCPhase.phaseA ∧
    (runEvents constEngine (initState sampleImg "o.png") [Event.key 13]).rect
        = some (0, 0, 0, 0) := by
  decide

/-- C2 amended: a confirm key event in Phase A always exits Phase A,
whether or not any pointer-up has occurred: the session moves to Phase B
(or dies if the engine raises on the frozen rectangle), freezing the
rectangle from the current interaction fields. -/
theorem C2_amended (engine : Engine) (s : GCState) (hA : s.phase = GCPhase.phaseA) :
    (step engine s (Event.key 13)).phase ≠ GCPhase.phaseA ∧
    ((step engine s (Event.key 13)).phase = GCPhase.phaseB ∨
      (step engine s (Event.key 13)).phase = GCPhase.crashed) ∧
    (step engine s (Event.key 13)).rect = some (s.x, s.y, s.w, s.h) := by
  have hstep : step engine s (Event.key 13) = confirmA engine s := by
    simp [step, hA]
  rw [hstep]
  unfold confirmA
  by_cases hseg : s.segmentation_initialized
  · simp [hseg]
  · simp only [hseg]
    cases hE : engine s.originalImage s.mask (some (s.x, s.y, s.w, s.h)) false with
    | none =>
        simp [segment, hE, hseg, recompute]
    | some m =>
        simp [segment, hE, hseg, recompute, hA]

theorem C2_amended_witness :
    (initState sampleImg "o.png").phase = GCPhase.phaseA ∧
    ((step constEngine (initState sampleImg "o.png") (Event.key 13)).phase
        ≠ GCPhase.phaseA ∧
      ((step constEngine (initState sampleImg "o.png") (Event.key 13)).phase
          = GCPhase.phaseB ∨
        (step constEngine (initState sampleImg "o.png") (Event.key 13)).phase
          = GCPhase.crashed) ∧
      (step constEngine (initState sampleImg "o.png") (Event.key 13)).rect
        = some ((initState sampleImg "o.png").x, (initState sampleImg "o.png").y,
            (initState sampleImg "o.png").w, (initState sampleImg "o.png").h)) :=
  ⟨by decide, C2_amended constEngine (initState sampleImg "o.png") (by decide)⟩

/-! ### C3: engine failure is not handled -/

theorem runEvents_of_crashed (engine : Engine) (s : GCState) (es : List Event)
    (h : s.phase = GCPhase.crashed) :
    runEvents engine s es = s := by
  induction es with
  | nil => rfl
  | cons e t ih =>
    have hstep : step engine s e = s := by
      unfold step
      rw [h]
    show runEvents engine (step engine s e) t = s
    rw [hstep, ih]

/-- C3 fails on the code: `GrabCut.segment` wraps `cv2.grabCut` in no
try/except, so when the engine raises on a degenerate zero-area rectangle
(here: confirming with no drag at all, freezing the default rectangle
`(0,0,0,0)`), the exception propagates out of `run` and the session
crashes instead of surfacing the failure and continuing — subsequent
events are never processed. -/
theorem C3_counterexample :
    (runEvents zeroRectEngine (initState sampleImg "o.png") [Event.key 13]).phase
        = GCPhase.crashed ∧
    (runEvents zeroRectEngine (initState sampleImg "o.png") [Event.key 13]).phase
        ≠ GCPhase.phaseA ∧
    (runEvents zeroRectEngine (initState sampleImg "o.png") [Event.key 13]).phase
        ≠ GCPhase.phaseB ∧
    runEvents zeroRectEngine (initState sampleImg "o.png")
        [Event.key 13, Event.lbuttondown 0 0, Event.key 115]
      = runEvents zeroRectEngine (initState sampleImg "o.png") [Event.key 13] := by
  decide

/-- C3 amended: when the segmentation engine signals failure, the mask
held before the call is indeed left completely unchanged, but the session
does not survive: the uncaught exception crashes it, no failure is
surfaced, and no further event is ever processed. -/
theorem C3_amended (engine engine2 : Engine) (s : GCState) (initialized : Bool)
    (es : List Event)
    (hfail : engine s.originalImage s.mask s.rect initialized = none) :
    (segment engine s initialized).phase = GCPhase.crashed ∧
    (segment engine s initialized).mask = s.mask ∧
    runEvents engine2 (segment engine s initialized) es = segment engine s initialized := by
  have hseg : segment engine s initialized
      = { s with phase := GCPhase.crashed,
                 calls := s.calls ++ [(s.rect, initialized)] } := by
    unfold segment
    rw [hfail]
  refine ⟨by rw [hseg], by rw [hseg], ?_⟩
  exact runEvents_of_crashed engine2 _ es (by rw [hseg])

theorem C3_amended_witness :
    zeroRectEngine
        ({ initState sampleImg "o.png" with rect := some (0, 0, 0, 0) }).originalImage
        ({ initState sampleImg "o.png" with rect := some (0, 0, 0, 0) }).mask
        ({ initState sampleImg "o.png" with rect := some (0, 0, 0, 0) }).rect false
      = none ∧
    ((segment zeroRectEngine
          ({ initState sampleImg "o.png" with rect := some (0, 0, 0, 0) }) false).phase
        = GCPhase.crashed ∧
      (segment zeroRectEngine
          ({ initState sampleImg "o.png" with rect := some (0, 0, 0, 0) }) false).mask
        = ({ initState sampleImg "o.png" with rect := some (0, 0, 0, 0) }).mask ∧
      runEvents constEngine
          (segment zeroRectEngine
            ({ initState sampleImg "o.png" with rect := some (0, 0, 0, 0) }) false)
          [Event.key 13]
        = segment zeroRectEngine
            ({ initState sampleImg "o.png" with rect := some (0, 0, 0, 0) }) false) :=
  ⟨by decide,
    C3_amended zeroRectEngine constEngine
      ({ initState sampleImg "o.png" with rect := some (0, 0, 0, 0) }) false
      [Event.key 13] (by decide)⟩

/-! ### C5: the preview goes stale after scribble strokes -/

/-- C5 fails on the code: a scribble stroke in Phase B mutates the label
mask inside the mouse callback, but `segmented_image` is only recomputed
after the next key event of the Phase B loop.  Concretely: enter Phase B,
toggle to the foreground brush, stamp at (0,0) — the mask now marks
foreground, yet the displayed preview is still the all-zero buffer, not
`composite(original image, current mask)`. -/
theorem C5_counterexample :
    (runEvents constEngine (initState sampleImg "o.png")
        [Event.key 13, Event.key 32, Event.lbuttondown 0 0]).mask
      ≠ (runEvents constEngine (initState sampleImg "o.png")
          [Event.key 13, Event.key 32]).mask ∧
    (runEvents constEngine (initState sampleImg "o.png")
        [Event.key 13, Event.key 32, Event.lbuttondown 0 0]).segmented
      ≠ composite
          (runEvents constEngine (initState sampleImg "o.png")
            [Event.key 13, Event.key 32, Event.lbuttondown 0 0]).originalImage
          (runEvents constEngine (initState sampleImg "o.png")
            [Event.key 13, Event.key 32, Event.lbuttondown 0 0]).mask := by
  decide

/-- C5 amended: the preview is recomputed to
`composite(original image, current mask)` by the Phase B loop after a
successful refinement invocation (and after a save or any other key that
falls through to the recomputation), but a scribble stroke event leaves
the preview untouched, so it is stale until the next such key event. -/
theorem C5_amended (engine : Engine) (s : GCState) (m : Grid) (px py : Int)
    (hB : s.phase = GCPhase.phaseB)
    (hok : engine s.originalImage s.mask s.rect s.segmentation_initialized = some m) :
    (step engine s (Event.key 13)).segmented
        = composite (step engine s (Event.key 13)).originalImage
            (step engine s (Event.key 13)).mask ∧
    (step engine s (Event.key 115)).segmented
        = composite (step engine s (Event.key 115)).originalImage
            (step engine s (Event.key 115)).mask ∧
    (step engine s (Event.lbuttondown px py)).segmented = s.segmented ∧
    (step engine s (Event.mousemove px py)).segmented = s.segmented ∧
    (step engine s (Event.lbuttonup px py)).segmented = s.segmented := by
  have hkey : step engine s (Event.key 13) = phaseBKey engine s 13 := by
    simp [step, hB]
  have hsave : step engine s (Event.key 115) = phaseBKey engine s 115 := by
    simp [step, hB]
  refine ⟨?_, ?_, ?_, ?_, ?_⟩
  · rw [hkey]
    unfold phaseBKey
    simp only [show (13 : Nat) ≠ 27 from by decide, show (13 : Nat) ≠ 32 from by decide,
      if_neg, if_pos, reduceIte]
    have hseg : segment engine s s.segmentation_initialized
        = { s with mask := m,
                   calls := s.calls ++ [(s.rect, s.segmentation_initialized)] } := by
      unfold segment
      rw [hok]
    rw [hseg]
    simp [hB, recompute]
  · rw [hsave]
    unfold phaseBKey
    simp [recompute]
  · by_cases hb : s.background <;> simp [step, hB, draw_markers, hb]
  · by_cases hb : s.background <;> by_cases hd : s.drawing <;>
      simp [step, hB, draw_markers, hb, hd]
  · by_cases hb : s.background <;> by_cases hd : s.drawing <;>
      simp [step, hB, draw_markers, hb, hd]

theorem C5_amended_witness :
    (runEvents constEngine (initState sampleImg "o.png")
        [Event.key 13, Event.key 32, Event.lbuttondown 0 0]).phase = GCPhase.phaseB ∧
    constEngine
        (runEvents constEngine (initState sampleImg "o.png")
          [Event.key 13, Event.key 32, Event.lbuttondown 0 0]).originalImage
        (runEvents constEngine (initState sampleImg "o.png")
          [Event.key 13, Event.key 32, Event.lbuttondown 0 0]).mask
        (runEvents constEngine (initState sampleImg "o.png")
          [Event.key 13, Event.key 32, Event.lbuttondown 0 0]).rect
        (runEvents constEngine (initState sampleImg "o.png")
          [Event.key 13, Event.key 32, Event.lbuttondown 0 0]).segmentation_initialized
      = some (runEvents constEngine (initState sampleImg "o.png")
          [Event.key 13, Event.key 32, Event.lbuttondown 0 0]).mask ∧
    (step constEngine
        (runEvents constEngine (initState sampleImg "o.png")
          [Event.key 13, Event.key 32, Event.lbuttondown 0 0]) (Event.key 13)).segmented
      = composite
          (step constEngine
            (runEvents constEngine (initState sampleImg "o.png")
              [Event.key 13, Event.key 32, Event.lbuttondown 0 0]) (Event.key 13)).originalImage
          (step constEngine
            (runEvents constEngine (initState sampleImg "o.png")
              [Event.key 13, Event.key 32, Event.lbuttondown 0 0]) (Event.key 13)).mask :=
  ⟨by decide, by decide,
    (C5_amended constEngine
      (runEvents constEngine (initState sampleImg "o.png")
        [Event.key 13, Event.key 32, Event.lbuttondown 0 0])
      (runEvents constEngine (initState sampleImg "o.png")
        [Event.key 13, Event.key 32, Event.lbuttondown 0 0]).mask 0 0
      (by decide) (by decide)).1⟩

/-! ### C1: the one rect-initialized engine invocation -/

theorem countFalse_append_true (l : List (Option RectT × Bool)) (r : Option RectT) :
    countFalse (l ++ [(r, true)]) = countFalse l := by
  simp [countFalse, List.filter_append]

theorem stepA_quiet_fields (engine : Engine) (s : GCState) (e : Event)
    (hA : s.phase = GCPhase.phaseA) (hqe : quietA e = true) :
    (step engine s e).x = s.x ∧
    (step engine s e).y = s.y ∧
    (step engine s e).w = s.w ∧
    (step engine s e).h = s.h ∧
    (step engine s e).calls = s.calls ∧
    (step engine s e).segmentation_initialized = s.segmentation_initialized ∧
    (step engine s e).phase = GCPhase.phaseA := by
  rcases e with ⟨px, py⟩ | ⟨px, py⟩ | ⟨px, py⟩ | k <;> simp [quietA] at hqe
  · by_cases hd : s.drawing <;> simp [step, hA, draw_rectangle, hd]
  · simp [step, hA, hqe.1, hqe.2]

theorem runA_quiet_fields (engine : Engine) (s : GCState) (es : List Event)
    (hA : s.phase = GCPhase.phaseA) (hq : es.all quietA = true) :
    (runEvents engine s es).x = s.x ∧
    (runEvents engine s es).y = s.y ∧
    (runEvents engine s es).w = s.w ∧
    (runEvents engine s es).h = s.h ∧
    (runEvents engine s es).calls = s.calls ∧
    (runEvents engine s es).segmentation_initialized = s.segmentation_initialized ∧
    (runEvents engine s es).phase = GCPhase.phaseA := by
  induction es generalizing s with
  | nil => exact ⟨rfl, rfl, rfl, rfl, rfl, rfl, hA⟩
  | cons e t ih =>
    simp only [List.all_cons, Bool.and_eq_true] at hq
    obtain ⟨hqe, hq⟩ := hq
    obtain ⟨h1, h2, h3, h4, h5, h6, h7⟩ := stepA_quiet_fields engine s e hA hqe
    have hrun : runEvents engine s (e :: t) = runEvents engine (step engine s e) t := rfl
    rw [hrun]
    obtain ⟨g1, g2, g3, g4, g5, g6, g7⟩ := ih (step engine s e) h7 hq
    exact ⟨by rw [g1, h1], by rw [g2, h2], by rw [g3, h3], by rw [g4, h4],
      by rw [g5, h5], by rw [g6, h6], g7⟩

theorem confirmA_fields (engine : Engine) (s : GCState)
    (hA : s.phase = GCPhase.phaseA) (hseg : s.segmentation_initialized = false) :
    (confirmA engine s).calls = s.calls ++ [(some (s.x, s.y, s.w, s.h), false)] ∧
    (confirmA engine s).rect = some (s.x, s.y, s.w, s.h) ∧
    (confirmA engine s).segmentation_initialized = true := by
  unfold confirmA
  simp only [hseg, Bool.false_eq_true, if_false, reduceIte]
  cases hE : engine s.originalImage s.mask (some (s.x, s.y, s.w, s.h)) false with
  | none => simp [segment, hE, recompute]
  | some m => simp [segment, hE, recompute, hA]

theorem step_no_new_false (engine : Engine) (s : GCState) (e : Event)
    (hseg : s.segmentation_initialized = true) :
    (step engine s e).segmentation_initialized = true ∧
    countFalse (step engine s e).calls = countFalse s.calls := by
  cases hp : s.phase with
  | phaseA =>
      rcases e with ⟨px, py⟩ | ⟨px, py⟩ | ⟨px, py⟩ | k
      · simp [step, hp, draw_rectangle, hseg]
      · by_cases hd : s.drawing <;> simp [step, hp, draw_rectangle, hd, hseg]
      · simp [step, hp, draw_rectangle, hseg]
      · by_cases h27 : k = 27
        · simp [step, hp, h27, hseg]
        · by_cases h13 : k = 13
          · subst h13
            have hstep : step engine s (Event.key 13) = confirmA engine s := by
              simp [step, hp]
            rw [hstep]
            unfold confirmA
            simp [hseg]
          · simp [step, hp, h27, h13, hseg]
  | phaseB =>
      rcases e with ⟨px, py⟩ | ⟨px, py⟩ | ⟨px, py⟩ | k
      · by_cases hb : s.background <;> simp [step, hp, draw_markers, hb, hseg]
      · by_cases hb : s.background <;> by_cases hd : s.drawing <;>
          simp [step, hp, draw_markers, hb, hd, hseg]
      · by_cases hb : s.background <;> by_cases hd : s.drawing <;>
          simp [step, hp, draw_markers, hb, hd, hseg]
      · have hstep : step engine s (Event.key k) = phaseBKey engine s k := by
          simp [step, hp]
        rw [hstep]
        by_cases h27 : k = 27
        · simp [phaseBKey, h27, hseg]
        · by_cases h32 : k = 32
          · by_cases hb : s.background <;> simp [phaseBKey, h27, h32, hb, hseg]
          · by_cases h13 : k = 13
            · have hsegeq : segment engine s s.segmentation_initialized
                  = segment engine s true := by rw [hseg]
              simp only [phaseBKey, h27, h32, h13, if_false, reduceIte, hsegeq]
              cases hE : engine s.originalImage s.mask s.rect true with
              | none =>
                  simp [segment, hE, recompute, hseg, countFalse_append_true]
              | some m =>
                  by_cases hcr : s.phase = GCPhase.crashed <;>
                    simp [segment, hE, recompute, hseg, countFalse_append_true, hp]
            · by_cases h115 : k = 115 <;>
                simp [phaseBKey, h27, h32, h13, h115, recompute, hseg]
  | terminated => simp [step, hp, hseg]
  | crashed => simp [step, hp, hseg]

theorem runEvents_no_new_false (engine : Engine) (s : GCState) (es : List Event)
    (hseg : s.segmentation_initialized = true) :
    (runEvents engine s es).segmentation_initialized = true ∧
    countFalse (runEvents engine s es).calls = countFalse s.calls := by
  induction es generalizing s with
  | nil => exact ⟨hseg, rfl⟩
  | cons e t ih =>
    obtain ⟨h1, h2⟩ := step_no_new_false engine s e hseg
    have hrun : runEvents engine s (e :: t) = runEvents engine (step engine s e) t := rfl
    rw [hrun]
    obtain ⟨g1, g2⟩ := ih (step engine s e) h1
    exact ⟨g1, by rw [g2, h2]⟩

/-- C1 fails on the code as stated: the rectangle handed to the engine at
confirm is rebuilt from the live interaction fields `x, y, w, h`, and a
pointer-down after the last pointer-up overwrites the anchor `x, y`.
Concretely: drag (0,0)→(4,5) finalizes the rectangle (0,0,4,5); a further
pointer-down at (2,3) then re-anchors; confirming invokes the engine once
with `initialized = false` but with rectangle (2,3,4,5), not the
finalized (0,0,4,5). -/
theorem C1_counterexample :
    (runEvents constEngine (initState sampleImg "o.png")
        [Event.lbuttondown 0 0, Event.lbuttonup 4 5]).x = 0 ∧
    (runEvents constEngine (initState sampleImg "o.png")
        [Event.lbuttondown 0 0, Event.lbuttonup 4 5]).y = 0 ∧
    (runEvents constEngine (initState sampleImg "o.png")
        [Event.lbuttondown 0 0, Event.lbuttonup 4 5]).w = 4 ∧
    (runEvents constEngine (initState sampleImg "o.png")
        [Event.lbuttondown 0 0, Event.lbuttonup 4 5]).h = 5 ∧
    (runEvents constEngine (initState sampleImg "o.png")
        [Event.lbuttondown 0 0, Event.lbuttonup 4 5, Event.lbuttondown 2 3,
          Event.key 13]).calls
      = [(some (2, 3, 4, 5), false)] ∧
    (some ((2 : Int), (3 : Int), (4 : Int), (5 : Int)), false)
      ≠ (some ((0 : Int), (0 : Int), (4 : Int), (5 : Int)), false) := by
  decide

/-- C1 amended: after a finalizing pointer-up at `(ux, uy)` in a
Phase A state with anchor `(x, y)`, followed only by quiet events (moves
and keys other than confirm/abort, so that in particular no pointer-down
re-anchors the rectangle) and then confirm, the Segmentation Adapter is
invoked exactly once with `initialized = false` and exactly the finalized
rectangle `(min x ux, min y uy, |x - ux|, |y - uy|)`, and
segmentation-initialized becomes true so that no later event can ever
cause another `initialized = false` invocation. -/
theorem C1_amended (engine : Engine) (s : GCState) (ux uy : Int)
    (es2 es3 : List Event)
    (hA : s.phase = GCPhase.phaseA) (hseg : s.segmentation_initialized = false)
    (hq : es2.all quietA = true) :
    (runEvents engine s (upThenConfirm ux uy es2)).calls
      = s.calls ++ [(some (min s.x ux, min s.y uy, |s.x - ux|, |s.y - uy|), false)] ∧
    (runEvents engine s (upThenConfirm ux uy es2)).rect
      = some (min s.x ux, min s.y uy, |s.x - ux|, |s.y - uy|) ∧
    (runEvents engine s (upThenConfirm ux uy es2)).segmentation_initialized = true ∧
    countFalse (runEvents engine (runEvents engine s (upThenConfirm ux uy es2)) es3).calls
      = countFalse (runEvents engine s (upThenConfirm ux uy es2)).calls := by
  have hup : runEvents engine s (upThenConfirm ux uy es2)
      = runEvents engine (step engine s (Event.lbuttonup ux uy)) (es2 ++ [Event.key 13]) :=
    rfl
  have hsplit : runEvents engine (step engine s (Event.lbuttonup ux uy))
        (es2 ++ [Event.key 13])
      = step engine
          (runEvents engine (step engine s (Event.lbuttonup ux uy)) es2)
          (Event.key 13) := by
    unfold runEvents
    rw [List.foldl_append]
    rfl
  have hs1x : (step engine s (Event.lbuttonup ux uy)).x = min s.x ux := by
    simp [step, hA, draw_rectangle]
  have hs1y : (step engine s (Event.lbuttonup ux uy)).y = min s.y uy := by
    simp [step, hA, draw_rectangle]
  have hs1w : (step engine s (Event.lbuttonup ux uy)).w = |s.x - ux| := by
    simp [step, hA, draw_rectangle]
  have hs1h : (step engine s (Event.lbuttonup ux uy)).h = |s.y - uy| := by
    simp [step, hA, draw_rectangle]
  have hs1c : (step engine s (Event.lbuttonup ux uy)).calls = s.calls := by
    simp [step, hA, draw_rectangle]
  have hs1s : (step engine s (Event.lbuttonup ux uy)).segmentation_initialized
      = s.segmentation_initialized := by
    simp [step, hA, draw_rectangle]
  have hs1p : (step engine s (Event.lbuttonup ux uy)).phase = GCPhase.phaseA := by
    simp [step, hA, draw_rectangle]
  obtain ⟨g1, g2, g3, g4, g5, g6, g7⟩ :=
    runA_quiet_fields engine (step engine s (Event.lbuttonup ux uy)) es2 hs1p hq
  have hconf : step engine
        (runEvents engine (step engine s (Event.lbuttonup ux uy)) es2)
        (Event.key 13)
      = confirmA engine (runEvents engine (step engine s (Event.lbuttonup ux uy)) es2) := by
    generalize hS : runEvents engine (step engine s (Event.lbuttonup ux uy)) es2 = S at g7 ⊢
    simp [step, g7]
  obtain ⟨c1, c2, c3⟩ :=
    confirmA_fields engine (runEvents engine (step engine s (Event.lbuttonup ux uy)) es2)
      g7 (by rw [g6, hs1s, hseg])
  have hrect : ((runEvents engine (step engine s (Event.lbuttonup ux uy)) es2).x,
        (runEvents engine (step engine s (Event.lbuttonup ux uy)) es2).y,
        (runEvents engine (step engine s (Event.lbuttonup ux uy)) es2).w,
        (runEvents engine (step engine s (Event.lbuttonup ux uy)) es2).h)
      = ((min s.x ux : Int), (min s.y uy : Int), |s.x - ux|, |s.y - uy|) := by
    rw [g1, g2, g3, g4, hs1x, hs1y, hs1w, hs1h]
  rw [hup, hsplit, hconf]
  rw [hrect] at c1 c2
  rw [g5, hs1c] at c1
  refine ⟨c1, c2, c3, ?_⟩
  exact (runEvents_no_new_false engine _ es3 c3).2

theorem C1_amended_witness :
    (initState sampleImg "o.png").phase = GCPhase.phaseA ∧
    (initState sampleImg "o.png").segmentation_initialized = false ∧
    [Event.key 97].all quietA = true ∧
    ((runEvents constEngine (initState sampleImg "o.png")
        (upThenConfirm 4 5 [Event.key 97])).calls
      = (initState sampleImg "o.png").calls
          ++ [(some (min (initState sampleImg "o.png").x 4,
                min (initState sampleImg "o.png").y 5,
                |(initState sampleImg "o.png").x - 4|,
                |(initState sampleImg "o.png").y - 5|), false)] ∧
      (runEvents constEngine (initState sampleImg "o.png")
        (upThenConfirm 4 5 [Event.key 97])).rect
      = some (min (initState sampleImg "o.png").x 4,
          min (initState sampleImg "o.png").y 5,
          |(initState sampleImg "o.png").x - 4|,
          |(initState sampleImg "o.png").y - 5|) ∧
      (runEvents constEngine (initState sampleImg "o.png")
        (upThenConfirm 4 5 [Event.key 97])).segmentation_initialized = true ∧
      countFalse (runEvents constEngine
          (runEvents constEngine (initState sampleImg "o.png")
            (upThenConfirm 4 5 [Event.key 97])) [Event.key 13]).calls
        = countFalse (runEvents constEngine (initState sampleImg "o.png")
            (upThenConfirm 4 5 [Event.key 97])).calls) :=
  ⟨by decide, by decide, by decide,
    C1_amended constEngine (initState sampleImg "o.png") 4 5 [Event.key 97] [Event.key 13]
      (by decide) (by decide) (by decide)⟩

end GrabCut
